import Mathlib

/-!
Shallow embedding of `src/model.rs` of the tensat repository: the term
language `Mdl`, the per-eclass metadata record `ValTnsr`, and the metadata
analysis (`make`, `merge`, `modify`) of `TensorAnalysis`.

Modelling conventions:
* Machine integers (`i32`) are modelled as `Int`; the only place where the
  32-bit range matters is `str::parse::<i32>()`, which rejects out-of-range
  numerals, and that range check is modelled explicitly.
* The TASO backend graph (reached through unsafe FFI in the source) is
  modelled as an abstract `Backend` record of constructor functions, and
  `make` additionally returns the list of backend calls it performs, so that
  "calls constructor X with arguments Y" and "no backend call" are provable
  facts about the embedding.
* Rust panics (`assert!`, `unwrap()`, `todo!()`) are modelled as
  `Except.error` outcomes of `make`, tagged by which fatal path was taken.
* Raw tensor pointers (`TensorHandle`) are modelled as `null` or a pointer
  to a concrete `Tensor` value; `Box::into_raw(Box::new(t.clone()))` becomes
  `TensorHandle.ptr t`.
-/

namespace Tensat

/-- E-class identifiers of the egg engine (`egg::Id`). -/
abbrev Id := Nat

/-- `DataKind` from `src/model.rs`: the discriminant of the metadata record. -/
inductive DataKind where
  | Name
  | Scalar
  | Tnsr
  | TnsrTuple
deriving DecidableEq, Repr

/-- `impl Default for DataKind` in the source returns `DataKind::Name`. -/
def DataKind.default : DataKind := DataKind.Name

/-- The backend's `Op` value; in the source it is a TASO `Op` (a guid plus a
pointer to the op record). Only its identity matters here. -/
structure Op where
  guid : Int
deriving DecidableEq, Repr

/-- The invalid-op sentinel `Op_INVALID_OP` returned by the backend on
failure; modelled as a distinguished guid. -/
def Op_INVALID_OP : Op := { guid := -1 }

/-- A TASO tensor record, as dereferenced by the `Split` arm:
`(*t_inpt).op` and `(*t_inpt).idx`. -/
structure Tensor where
  op : Op
  idx : Int
deriving DecidableEq, Repr

/-- A raw `*mut Tensor` pointer: either `std::ptr::null_mut()` or a pointer
to a tensor record. -/
inductive TensorHandle where
  | null
  | ptr (t : Tensor)
deriving DecidableEq, Repr

/-- `ValTnsr` from `src/model.rs`: the metadata struct for `TensorAnalysis`. -/
structure ValTnsr where
  dtype : DataKind
  val : Int
  name : String
  meta : TensorHandle
  meta_2 : TensorHandle
deriving DecidableEq, Repr

/-- Models `impl Default for ValTnsr`: the source writes
`ValTnsr { meta: null_mut(), meta_2: null_mut(), ..Default::default() }`,
whose struct-update base `..Default::default()` resolves to
`ValTnsr::default` itself, i.e. the function calls itself before doing
anything else. `fuel` bounds the recursion depth: a result `some v` would
mean the Rust evaluation returns within `fuel` nested calls. -/
def ValTnsr.defaultFuel : Nat → Option ValTnsr
  | 0 => none
  | n + 1 =>
    match ValTnsr.defaultFuel n with
    | none => none
    | some base => some { base with meta := TensorHandle.null, meta_2 := TensorHandle.null }

/-- The term language `Mdl` from `define_language!` in `src/model.rs`,
with the operand `Id`s spelled out. -/
inductive Mdl where
  | Input (name : Id)
  | Weight (name : Id)
  | Ewadd (a b : Id)
  | Ewmul (a b : Id)
  | Smul (a b : Id)
  | Transpose (a : Id)
  | Matmul (act a b : Id)
  | Conv2d (stride_h stride_w pad act inpt wght : Id)
  | Enlarge (a b : Id)
  | Relu (a : Id)
  | Tanh (a : Id)
  | Sigmoid (a : Id)
  | Poolavg (inpt kernel_h kernel_w stride_h stride_w pad act : Id)
  | Poolmax (inpt kernel_h kernel_w stride_h stride_w pad act : Id)
  | Concat (axis ndim a b : Id)
  | Split0 (inpt : Id)
  | Split1 (inpt : Id)
  | Split (axis inpt : Id)
  | Cpool (a b : Id)
  | Iconv (a b : Id)
  | Imatmul
  | Iewmul
  | Merge (weight count : Id)
  | Num (n : Int)
  | Var (s : String)
deriving DecidableEq, Repr

/-- Operator parameter constants, values matching the TASO side
(`src/model.rs` lines 16-22). -/
def PSAME : Int := 0

def PVALID : Int := 1

def ACTNONE : Int := 0

def ACTSIGMOID : Int := 1

def ACTRELU : Int := 2

def ACTTANH : Int := 3

/-- Modelled from the spec: the `TryInto<PaddingMode>` conversion used by
`x(pad).val.try_into().unwrap()` lives in the generated FFI bindings
(`bindings.rs`, produced at build time and not part of `src/`). The spec
fixes the integer encoding of padding mode as SAME=0, VALID=1, so decoding
succeeds exactly on those values. -/
def decodePadding (v : Int) : Option Int :=
  if v = PSAME ∨ v = PVALID then some v else none

/-- Modelled from the spec: the `TryInto<ActiMode>` conversion used by
`x(act).val.try_into().unwrap()` lives in the generated FFI bindings. The
spec fixes the activation encoding as NONE=0, SIGMOID=1, RELU=2, TANH=3, so
decoding succeeds exactly on those values. -/
def decodeActi (v : Int) : Option Int :=
  if v = ACTNONE ∨ v = ACTSIGMOID ∨ v = ACTRELU ∨ v = ACTTANH then some v else none

/-- Elementwise opcode constants from the generated bindings
(`OpType_OP_EW_ADD`, `OpType_OP_EW_MUL`); their exact numeric values are
irrelevant to the analysis, only that the two opcodes are distinct. -/
def OpType_OP_EW_ADD : Int := 0

/-- See `OpType_OP_EW_ADD`. -/
def OpType_OP_EW_MUL : Int := 1

/-- The fatal outcomes of `TensorAnalysis::make`, refining the Rust panic
sites: a failed `assert!` precondition, a failed `try_into().unwrap()`
enum decode, a failed `parse::<i32>().unwrap()` in `dim_from_name`, the
`assert!(op != Op_INVALID_OP)` check in the `Split` arm, a dereference of a
null tensor pointer, and the `todo!()` fallback arm. -/
inductive MakeErr where
  | assertFailed
  | decodeFailed
  | parseFailed
  | invalidOp
  | nullDeref
  | todoUnimplemented
deriving DecidableEq, Repr

/-- The abstract TASO backend: one field per graph-constructor entry point
that `make` calls through the FFI. Handles returned by the backend are
arbitrary; the analysis only wraps and forwards them. The randomly
initialised weight-data buffer of `new_weight` is abstracted away (its
contents never influence the analysis). -/
structure Backend where
  matmul : TensorHandle → TensorHandle → Int → TensorHandle
  conv2d1 : TensorHandle → TensorHandle → Int → Int → Int → Int → TensorHandle
  element : Int → TensorHandle → TensorHandle → TensorHandle
  relu : TensorHandle → Bool → TensorHandle
  tanh : TensorHandle → Bool → TensorHandle
  sigmoid : TensorHandle → Bool → TensorHandle
  new_input : Int → List Int → TensorHandle
  new_weight : Int → List Int → TensorHandle
  concat : Int → Int → List TensorHandle → TensorHandle
  merge_gconv : TensorHandle → Int → TensorHandle
  pool2d_max : TensorHandle → Int → Int → Int → Int → Int → Int → TensorHandle
  enlarge : TensorHandle → TensorHandle → TensorHandle
  get_or_create_split1 : TensorHandle → Int → Int → Op
  opOutputs : Op → Tensor × Tensor

/-- The log of backend invocations performed by one `make` call, in
program order, recording each call's arguments verbatim. -/
inductive BackendCall where
  | matmul (a b : TensorHandle) (activation : Int)
  | conv2d1 (inpt wght : TensorHandle) (strideH strideW padding activation : Int)
  | element (opType : Int) (a b : TensorHandle)
  | relu (t : TensorHandle) (inPlace : Bool)
  | tanh (t : TensorHandle) (inPlace : Bool)
  | sigmoid (t : TensorHandle) (inPlace : Bool)
  | new_input (ndim : Int) (dims : List Int)
  | new_weight (ndim : Int) (dims : List Int)
  | concat (axis n : Int) (ts : List TensorHandle)
  | merge_gconv (w : TensorHandle) (count : Int)
  | pool2d_max (t : TensorHandle) (kernelH kernelW strideH strideW padding activation : Int)
  | enlarge (a b : TensorHandle)
  | get_or_create_split1 (t : TensorHandle) (axis n : Int)
  | add_edge (srcOp : Op) (dstOp : Op) (srcIdx dstIdx : Int)
deriving DecidableEq, Repr

/-- Models a run of `assert!(x(i).dtype == K)` statements, in source order:
each list entry is one assert; the first failing assert aborts. -/
def checkKinds (env : Id → ValTnsr) : List (Id × DataKind) → Except MakeErr Unit
  | [] => Except.ok ()
  | (i, k) :: rest =>
    if (env i).dtype = k then checkKinds env rest else Except.error MakeErr.assertFailed

/-- One decimal digit at a time, as Rust's integer `FromStr` does; any
non-digit character fails the parse. -/
def parseDigits : List Char → Nat → Option Nat
  | [], acc => some acc
  | c :: cs, acc =>
    if c.isDigit then parseDigits cs (10 * acc + (c.toNat - 48)) else none

/-- Models `str::parse::<i32>()`: an optional leading sign, at least one
decimal digit, and a value within the `i32` range. Note that negative and
zero numerals are accepted. -/
def parseI32 (cs : List Char) : Option Int :=
  let core : Int → List Char → Option Int := fun sign ds =>
    match ds with
    | [] => none
    | _ =>
      match parseDigits ds 0 with
      | none => none
      | some n =>
        let v : Int := sign * (n : Int)
        if -(2 ^ 31) ≤ v ∧ v ≤ 2 ^ 31 - 1 then some v else none
  match cs with
  | '-' :: rest => core (-1) rest
  | '+' :: rest => core 1 rest
  | rest => core 1 rest

/-- Models Rust `str::split` for a single-character separator: the list of
(possibly empty) chunks between occurrences of `sep`; splitting the empty
string yields one empty chunk, as in Rust. -/
def splitOnChar (sep : Char) : List Char → List (List Char)
  | [] => [[]]
  | c :: cs =>
    let r := splitOnChar sep cs
    if c = sep then [] :: r
    else
      match r with
      | [] => [[c]]
      | p :: ps => (c :: p) :: ps

/-- The `dim_from_name` closure of `TensorAnalysis::make`: split the name on
`@`, `assert!` exactly two parts, split the second part on `_` and parse
each piece with `parse::<i32>().unwrap()`. -/
def dim_from_name (v : ValTnsr) : Except MakeErr (List Int) :=
  match splitOnChar '@' v.name.toList with
  | [_, dimsPart] =>
    match (splitOnChar '_' dimsPart).mapM parseI32 with
    | none => Except.error MakeErr.parseFailed
    | some dims => Except.ok dims
  | _ => Except.error MakeErr.assertFailed

/-- `TensorAnalysis::make` from `src/model.rs`, arm by arm. `env` is the
read access `|i| &egraph[*i].data` to operand metadata, `g` is the borrowed
backend graph. The result is the metadata record together with the list of
backend calls performed; the `Err` cases are the fatal (panicking) paths.
Buffer ownership transfer (`shrink_to_fit` / `mem::forget`) and the
`usize → i32` conversion of `ndim` are value-irrelevant and not modelled
beyond passing the dimension list itself. -/
def make (g : Backend) (env : Id → ValTnsr) (enode : Mdl) :
    Except MakeErr (ValTnsr × List BackendCall) :=
  match enode with
  | Mdl.Matmul act a b =>
    match checkKinds env [(act, DataKind.Scalar), (a, DataKind.Tnsr), (b, DataKind.Tnsr)] with
    | Except.error e => Except.error e
    | Except.ok _ =>
      let t_a := (env a).meta
      let t_b := (env b).meta
      match decodeActi (env act).val with
      | none => Except.error MakeErr.decodeFailed
      | some activation =>
        Except.ok
          ({ dtype := DataKind.Tnsr, val := 0, name := "",
             meta := g.matmul t_a t_b activation, meta_2 := TensorHandle.null },
           [BackendCall.matmul t_a t_b activation])
  | Mdl.Conv2d stride_h stride_w pad act inpt wght =>
    match checkKinds env
        [(stride_h, DataKind.Scalar), (stride_w, DataKind.Scalar), (pad, DataKind.Scalar),
         (act, DataKind.Scalar), (inpt, DataKind.Tnsr), (wght, DataKind.Tnsr)] with
    | Except.error e => Except.error e
    | Except.ok _ =>
      let t_inpt := (env inpt).meta
      let t_wght := (env wght).meta
      let strideH := (env stride_h).val
      let strideW := (env stride_w).val
      match decodePadding (env pad).val with
      | none => Except.error MakeErr.decodeFailed
      | some padding =>
        match decodeActi (env act).val with
        | none => Except.error MakeErr.decodeFailed
        | some activation =>
          Except.ok
            ({ dtype := DataKind.Tnsr, val := 0, name := "",
               meta := g.conv2d1 t_inpt t_wght strideH strideW padding activation,
               meta_2 := TensorHandle.null },
             [BackendCall.conv2d1 t_inpt t_wght strideH strideW padding activation])
  | Mdl.Ewadd a b =>
    match checkKinds env [(a, DataKind.Tnsr), (b, DataKind.Tnsr)] with
    | Except.error e => Except.error e
    | Except.ok _ =>
      let t_a := (env a).meta
      let t_b := (env b).meta
      Except.ok
        ({ dtype := DataKind.Tnsr, val := 0, name := "",
           meta := g.element OpType_OP_EW_ADD t_a t_b, meta_2 := TensorHandle.null },
         [BackendCall.element OpType_OP_EW_ADD t_a t_b])
  | Mdl.Ewmul a b =>
    match checkKinds env [(a, DataKind.Tnsr), (b, DataKind.Tnsr)] with
    | Except.error e => Except.error e
    | Except.ok _ =>
      let t_a := (env a).meta
      let t_b := (env b).meta
      Except.ok
        ({ dtype := DataKind.Tnsr, val := 0, name := "",
           meta := g.element OpType_OP_EW_MUL t_a t_b, meta_2 := TensorHandle.null },
         [BackendCall.element OpType_OP_EW_MUL t_a t_b])
  | Mdl.Relu a =>
    match checkKinds env [(a, DataKind.Tnsr)] with
    | Except.error e => Except.error e
    | Except.ok _ =>
      Except.ok
        ({ dtype := DataKind.Tnsr, val := 0, name := "",
           meta := g.relu (env a).meta true, meta_2 := TensorHandle.null },
         [BackendCall.relu (env a).meta true])
  | Mdl.Tanh a =>
    match checkKinds env [(a, DataKind.Tnsr)] with
    | Except.error e => Except.error e
    | Except.ok _ =>
      Except.ok
        ({ dtype := DataKind.Tnsr, val := 0, name := "",
           meta := g.tanh (env a).meta true, meta_2 := TensorHandle.null },
         [BackendCall.tanh (env a).meta true])
  | Mdl.Sigmoid a =>
    match checkKinds env [(a, DataKind.Tnsr)] with
    | Except.error e => Except.error e
    | Except.ok _ =>
      Except.ok
        ({ dtype := DataKind.Tnsr, val := 0, name := "",
           meta := g.sigmoid (env a).meta true, meta_2 := TensorHandle.null },
         [BackendCall.sigmoid (env a).meta true])
  | Mdl.Input name =>
    match checkKinds env [(name, DataKind.Name)] with
    | Except.error e => Except.error e
    | Except.ok _ =>
      match dim_from_name (env name) with
      | Except.error e => Except.error e
      | Except.ok dims =>
        Except.ok
          ({ dtype := DataKind.Tnsr, val := 0, name := "",
             meta := g.new_input (dims.length : Int) dims, meta_2 := TensorHandle.null },
           [BackendCall.new_input (dims.length : Int) dims])
  | Mdl.Weight name =>
    match checkKinds env [(name, DataKind.Name)] with
    | Except.error e => Except.error e
    | Except.ok _ =>
      match dim_from_name (env name) with
      | Except.error e => Except.error e
      | Except.ok dims =>
        Except.ok
          ({ dtype := DataKind.Tnsr, val := 0, name := "",
             meta := g.new_weight (dims.length : Int) dims, meta_2 := TensorHandle.null },
           [BackendCall.new_weight (dims.length : Int) dims])
  | Mdl.Concat axis ndim a b =>
    match checkKinds env
        [(axis, DataKind.Scalar), (ndim, DataKind.Scalar),
         (a, DataKind.Tnsr), (b, DataKind.Tnsr)] with
    | Except.error e => Except.error e
    | Except.ok _ =>
      let t_a := (env a).meta
      let t_b := (env b).meta
      let axis_val := (env axis).val
      Except.ok
        ({ dtype := DataKind.Tnsr, val := 0, name := "",
           meta := g.concat axis_val 2 [t_a, t_b], meta_2 := TensorHandle.null },
         [BackendCall.concat axis_val 2 [t_a, t_b]])
  | Mdl.Merge weight count =>
    match checkKinds env [(count, DataKind.Scalar), (weight, DataKind.Tnsr)] with
    | Except.error e => Except.error e
    | Except.ok _ =>
      Except.ok
        ({ dtype := DataKind.Tnsr, val := 0, name := "",
           meta := g.merge_gconv (env weight).meta (env count).val,
           meta_2 := TensorHandle.null },
         [BackendCall.merge_gconv (env weight).meta (env count).val])
  | Mdl.Poolmax inpt kernel_h kernel_w stride_h stride_w pad act =>
    match checkKinds env
        [(kernel_h, DataKind.Scalar), (kernel_w, DataKind.Scalar),
         (stride_h, DataKind.Scalar), (stride_w, DataKind.Scalar),
         (pad, DataKind.Scalar), (act, DataKind.Scalar), (inpt, DataKind.Tnsr)] with
    | Except.error e => Except.error e
    | Except.ok _ =>
      let t_inpt := (env inpt).meta
      let kernelH := (env kernel_h).val
      let kernelW := (env kernel_w).val
      let strideH := (env stride_h).val
      let strideW := (env stride_w).val
      match decodePadding (env pad).val with
      | none => Except.error MakeErr.decodeFailed
      | some padding =>
        match decodeActi (env act).val with
        | none => Except.error MakeErr.decodeFailed
        | some activation =>
          Except.ok
            ({ dtype := DataKind.Tnsr, val := 0, name := "",
               meta := g.pool2d_max t_inpt kernelH kernelW strideH strideW padding activation,
               meta_2 := TensorHandle.null },
             [BackendCall.pool2d_max t_inpt kernelH kernelW strideH strideW padding activation])
  | Mdl.Split axis inpt =>
    match checkKinds env [(axis, DataKind.Scalar), (inpt, DataKind.Tnsr)] with
    | Except.error e => Except.error e
    | Except.ok _ =>
      let t_inpt := (env inpt).meta
      let axis_val := (env axis).val
      let op := g.get_or_create_split1 t_inpt axis_val 2
      if op = Op_INVALID_OP then Except.error MakeErr.invalidOp
      else
        match t_inpt with
        | TensorHandle.null => Except.error MakeErr.nullDeref
        | TensorHandle.ptr t =>
          let outs := g.opOutputs op
          Except.ok
            ({ dtype := DataKind.TnsrTuple, val := 0, name := "",
               meta := TensorHandle.ptr outs.1, meta_2 := TensorHandle.ptr outs.2 },
             [BackendCall.get_or_create_split1 t_inpt axis_val 2,
              BackendCall.add_edge t.op op t.idx 0])
  | Mdl.Split0 inpt =>
    match checkKinds env [(inpt, DataKind.TnsrTuple)] with
    | Except.error e => Except.error e
    | Except.ok _ =>
      Except.ok
        ({ dtype := DataKind.Tnsr, val := 0, name := "",
           meta := (env inpt).meta, meta_2 := TensorHandle.null }, [])
  | Mdl.Split1 inpt =>
    match checkKinds env [(inpt, DataKind.TnsrTuple)] with
    | Except.error e => Except.error e
    | Except.ok _ =>
      Except.ok
        ({ dtype := DataKind.Tnsr, val := 0, name := "",
           meta := (env inpt).meta_2, meta_2 := TensorHandle.null }, [])
  | Mdl.Enlarge a b =>
    match checkKinds env [(a, DataKind.Tnsr), (b, DataKind.Tnsr)] with
    | Except.error e => Except.error e
    | Except.ok _ =>
      Except.ok
        ({ dtype := DataKind.Tnsr, val := 0, name := "",
           meta := g.enlarge (env a).meta (env b).meta, meta_2 := TensorHandle.null },
         [BackendCall.enlarge (env a).meta (env b).meta])
  | Mdl.Num n =>
    Except.ok
      ({ dtype := DataKind.Scalar, val := n, name := "",
         meta := TensorHandle.null, meta_2 := TensorHandle.null }, [])
  | Mdl.Var s =>
    Except.ok
      ({ dtype := DataKind.Name, val := 0, name := s,
         meta := TensorHandle.null, meta_2 := TensorHandle.null }, [])
  | Mdl.Smul _ _ => Except.error MakeErr.todoUnimplemented
  | Mdl.Transpose _ => Except.error MakeErr.todoUnimplemented
  | Mdl.Poolavg _ _ _ _ _ _ _ => Except.error MakeErr.todoUnimplemented
  | Mdl.Cpool _ _ => Except.error MakeErr.todoUnimplemented
  | Mdl.Iconv _ _ => Except.error MakeErr.todoUnimplemented
  | Mdl.Imatmul => Except.error MakeErr.todoUnimplemented
  | Mdl.Iewmul => Except.error MakeErr.todoUnimplemented

/-- `TensorAnalysis::merge`: returns `false` and leaves `to` untouched;
modelled as the pair (returned bool, final value of the `to` argument).
`toData` stands for the source's `to` parameter, `fromData` for `from`,
both Lean keywords. -/
def merge (toData fromData : ValTnsr) : Bool × ValTnsr := (false, toData)

/-- `TensorAnalysis::modify`: an empty body on `&mut EGraph`, i.e. the
identity on whatever e-graph state it is handed. -/
def modify {σ : Type} (egraphState : σ) (i : Id) : σ := egraphState

/-- The operand-kind requirements each arm of `make` asserts, position by
position in assert order; `none` for node kinds that reach the `todo!()`
fallback (whose arms state no requirement). -/
def operandReqs : Mdl → Option (List (Id × DataKind))
  | Mdl.Input name => some [(name, DataKind.Name)]
  | Mdl.Weight name => some [(name, DataKind.Name)]
  | Mdl.Ewadd a b => some [(a, DataKind.Tnsr), (b, DataKind.Tnsr)]
  | Mdl.Ewmul a b => some [(a, DataKind.Tnsr), (b, DataKind.Tnsr)]
  | Mdl.Matmul act a b =>
    some [(act, DataKind.Scalar), (a, DataKind.Tnsr), (b, DataKind.Tnsr)]
  | Mdl.Conv2d stride_h stride_w pad act inpt wght =>
    some [(stride_h, DataKind.Scalar), (stride_w, DataKind.Scalar), (pad, DataKind.Scalar),
          (act, DataKind.Scalar), (inpt, DataKind.Tnsr), (wght, DataKind.Tnsr)]
  | Mdl.Relu a => some [(a, DataKind.Tnsr)]
  | Mdl.Tanh a => some [(a, DataKind.Tnsr)]
  | Mdl.Sigmoid a => some [(a, DataKind.Tnsr)]
  | Mdl.Concat axis ndim a b =>
    some [(axis, DataKind.Scalar), (ndim, DataKind.Scalar),
          (a, DataKind.Tnsr), (b, DataKind.Tnsr)]
  | Mdl.Merge weight count => some [(count, DataKind.Scalar), (weight, DataKind.Tnsr)]
  | Mdl.Poolmax inpt kernel_h kernel_w stride_h stride_w pad act =>
    some [(kernel_h, DataKind.Scalar), (kernel_w, DataKind.Scalar),
          (stride_h, DataKind.Scalar), (stride_w, DataKind.Scalar),
          (pad, DataKind.Scalar), (act, DataKind.Scalar), (inpt, DataKind.Tnsr)]
  | Mdl.Split axis inpt => some [(axis, DataKind.Scalar), (inpt, DataKind.Tnsr)]
  | Mdl.Split0 inpt => some [(inpt, DataKind.TnsrTuple)]
  | Mdl.Split1 inpt => some [(inpt, DataKind.TnsrTuple)]
  | Mdl.Enlarge a b => some [(a, DataKind.Tnsr), (b, DataKind.Tnsr)]
  | Mdl.Num _ => some []
  | Mdl.Var _ => some []
  | Mdl.Smul _ _ => none
  | Mdl.Transpose _ => none
  | Mdl.Poolavg _ _ _ _ _ _ _ => none
  | Mdl.Cpool _ _ => none
  | Mdl.Iconv _ _ => none
  | Mdl.Imatmul => none
  | Mdl.Iewmul => none

/-- A concrete tensor record used by witnesses. -/
def tA : Tensor := { op := { guid := 5 }, idx := 0 }

/-- A second concrete tensor record used by witnesses. -/
def tB : Tensor := { op := { guid := 6 }, idx := 1 }

/-- A concrete backend instance for witnesses: every constructor returns a
fixed handle, and the split constructor returns a valid op with two
distinct outputs. -/
def testBackend : Backend where
  matmul := fun _ _ _ => TensorHandle.ptr { op := { guid := 100 }, idx := 0 }
  conv2d1 := fun _ _ _ _ _ _ => TensorHandle.ptr { op := { guid := 101 }, idx := 0 }
  element := fun _ _ _ => TensorHandle.ptr { op := { guid := 102 }, idx := 0 }
  relu := fun _ _ => TensorHandle.ptr { op := { guid := 103 }, idx := 0 }
  tanh := fun _ _ => TensorHandle.ptr { op := { guid := 104 }, idx := 0 }
  sigmoid := fun _ _ => TensorHandle.ptr { op := { guid := 105 }, idx := 0 }
  new_input := fun _ _ => TensorHandle.ptr { op := { guid := 106 }, idx := 0 }
  new_weight := fun _ _ => TensorHandle.ptr { op := { guid := 107 }, idx := 0 }
  concat := fun _ _ _ => TensorHandle.ptr { op := { guid := 108 }, idx := 0 }
  merge_gconv := fun _ _ => TensorHandle.ptr { op := { guid := 109 }, idx := 0 }
  pool2d_max := fun _ _ _ _ _ _ _ => TensorHandle.ptr { op := { guid := 110 }, idx := 0 }
  enlarge := fun _ _ => TensorHandle.ptr { op := { guid := 111 }, idx := 0 }
  get_or_create_split1 := fun _ _ _ => { guid := 50 }
  opOutputs := fun _ => ({ op := { guid := 50 }, idx := 0 }, { op := { guid := 50 }, idx := 1 })

/-- A concrete metadata environment for witnesses: ids 0-3 are scalars with
value equal to the id, 10-11 are tensors, 20-23 are names of various
shapes, and 30 is a tensor pair. -/
def testEnv : Id → ValTnsr
  | 0 => { dtype := DataKind.Scalar, val := 0, name := "", meta := TensorHandle.null, meta_2 := TensorHandle.null }
  | 1 => { dtype := DataKind.Scalar, val := 1, name := "", meta := TensorHandle.null, meta_2 := TensorHandle.null }
  | 2 => { dtype := DataKind.Scalar, val := 2, name := "", meta := TensorHandle.null, meta_2 := TensorHandle.null }
  | 3 => { dtype := DataKind.Scalar, val := 3, name := "", meta := TensorHandle.null, meta_2 := TensorHandle.null }
  | 10 => { dtype := DataKind.Tnsr, val := 0, name := "", meta := TensorHandle.ptr tA, meta_2 := TensorHandle.null }
  | 11 => { dtype := DataKind.Tnsr, val := 0, name := "", meta := TensorHandle.ptr tB, meta_2 := TensorHandle.null }
  | 20 => { dtype := DataKind.Name, val := 0, name := "x@3_4", meta := TensorHandle.null, meta_2 := TensorHandle.null }
  | 21 => { dtype := DataKind.Name, val := 0, name := "x@-2", meta := TensorHandle.null, meta_2 := TensorHandle.null }
  | 22 => { dtype := DataKind.Name, val := 0, name := "noatsign", meta := TensorHandle.null, meta_2 := TensorHandle.null }
  | 23 => { dtype := DataKind.Name, val := 0, name := "x@3a", meta := TensorHandle.null, meta_2 := TensorHandle.null }
  | 30 => { dtype := DataKind.TnsrTuple, val := 0, name := "", meta := TensorHandle.ptr tA, meta_2 := TensorHandle.ptr tB }
  | _ => { dtype := DataKind.Name, val := 0, name := "", meta := TensorHandle.null, meta_2 := TensorHandle.null }

/-! ## Helper lemmas -/

/-- If some required operand kind is violated, the assert run aborts with an
assertion failure. -/
theorem checkKinds_eq_error (env : Id → ValTnsr) :
    ∀ l : List (Id × DataKind), (∃ p ∈ l, (env p.1).dtype ≠ p.2) →
      checkKinds env l = Except.error MakeErr.assertFailed
  | [], h => by simp at h
  | (i, k) :: tl, h => by
    by_cases hik : (env i).dtype = k
    · have htl : ∃ p ∈ tl, (env p.1).dtype ≠ p.2 := by
        obtain ⟨p, hmem, hne⟩ := h
        rcases List.mem_cons.mp hmem with hp | hp
        · subst hp; exact absurd hik hne
        · exact ⟨p, hp, hne⟩
      simp [checkKinds, hik, checkKinds_eq_error env tl htl]
    · simp [checkKinds, hik]

/-- If every required operand kind holds, the assert run succeeds. -/
theorem checkKinds_eq_ok (env : Id → ValTnsr) :
    ∀ l : List (Id × DataKind), (∀ p ∈ l, (env p.1).dtype = p.2) →
      checkKinds env l = Except.ok ()
  | [], _ => rfl
  | (i, k) :: tl, h => by
    have hik : (env i).dtype = k := h (i, k) (List.mem_cons_self _ _)
    have htl : ∀ p ∈ tl, (env p.1).dtype = p.2 := fun p hp => h p (List.mem_cons_of_mem _ hp)
    simp [checkKinds, hik, checkKinds_eq_ok env tl htl]

/-- Splitting a character list that does not contain the separator yields a
single chunk, the list itself. -/
theorem splitOnChar_of_not_mem (sep : Char) :
    ∀ cs : List Char, sep ∉ cs → splitOnChar sep cs = [cs]
  | [], _ => rfl
  | c :: cs, h => by
    have hc : c ≠ sep := fun hcs => h (hcs ▸ List.mem_cons_self _ _)
    have hcs : sep ∉ cs := fun hm => h (List.mem_cons_of_mem _ hm)
    simp [splitOnChar, hc, splitOnChar_of_not_mem sep cs hcs]

/-- If the name does not split into exactly two parts on `@`, the
`dim_from_name` closure hits its length assert. -/
theorem dim_from_name_not_two (v : ValTnsr)
    (h : (splitOnChar '@' v.name.toList).length ≠ 2) :
    dim_from_name v = Except.error MakeErr.assertFailed := by
  unfold dim_from_name
  rcases hl : splitOnChar '@' v.name.toList with _ | ⟨a, _ | ⟨d, _ | ⟨e, rest⟩⟩⟩ <;>
    simp_all

/-- When the name splits into exactly two parts on `@`, `dim_from_name`
reduces to parsing the `_`-separated pieces of the second part. -/
theorem dim_from_name_two (v : ValTnsr) (a d : List Char)
    (hsplit : splitOnChar '@' v.name.toList = [a, d]) :
    dim_from_name v =
      match (splitOnChar '_' d).mapM parseI32 with
      | none => Except.error MakeErr.parseFailed
      | some dims => Except.ok dims := by
  unfold dim_from_name
  rw [hsplit]

/-! ## Claim theorems -/

/-- C2: for every node kind for which the analysis states operand-kind
requirements, if any operand position carries metadata whose kind tag does
not match the requirement, `make` aborts with a failed precondition assert
(and in particular never returns a metadata record). -/
theorem C2_mismatch_aborts (g : Backend) (env : Id → ValTnsr) (enode : Mdl)
    (reqs : List (Id × DataKind)) (hreq : operandReqs enode = some reqs)
    (hmis : ∃ p ∈ reqs, (env p.1).dtype ≠ p.2) :
    make g env enode = Except.error MakeErr.assertFailed := by
  cases enode <;> simp only [operandReqs, Option.some.injEq, reduceCtorEq] at hreq <;>
    first
      | (subst hreq
         first
           | (simp only [make]; rw [checkKinds_eq_error env _ hmis])
           | (obtain ⟨p, hp, _⟩ := hmis; simp at hp))

/-- C2 witness: a `Matmul` whose activation operand carries `Name` metadata
(where `Scalar` is required) aborts with the assertion failure. -/
theorem C2_mismatch_aborts_witness :
    operandReqs (Mdl.Matmul 20 10 11) =
      some [(20, DataKind.Scalar), (10, DataKind.Tnsr), (11, DataKind.Tnsr)] ∧
    (∃ p ∈ [((20 : Id), DataKind.Scalar), (10, DataKind.Tnsr), (11, DataKind.Tnsr)],
        (testEnv p.1).dtype ≠ p.2) ∧
    make testBackend testEnv (Mdl.Matmul 20 10 11) = Except.error MakeErr.assertFailed :=
  ⟨rfl, by decide, C2_mismatch_aborts testBackend testEnv (Mdl.Matmul 20 10 11) _ rfl (by decide)⟩

/-- C3: `merge` unconditionally reports no change (`false`) and returns the
existing `to` record unchanged in every field, and the post-merge `modify`
hook leaves any e-graph state exactly as it was. -/
theorem C3_merge_modify_noop :
    (∀ toData fromData : ValTnsr, merge toData fromData = (false, toData)) ∧
    (∀ (σ : Type) (st : σ) (i : Id), modify st i = st) :=
  ⟨fun _ _ => rfl, fun _ _ _ => rfl⟩

/-- C4: `make` on `Num n` returns `Scalar` metadata carrying `n` verbatim
and `make` on `Var s` returns `Name` metadata carrying `s` verbatim, with
no backend call in either case, for arbitrary integers and arbitrary
strings; a string without `@` is accepted at creation and only fails the
name-parse contract when consumed by `Input` or `Weight`. -/
theorem C4_literal_var_passthrough (g : Backend) (env : Id → ValTnsr) :
    (∀ n : Int,
       make g env (Mdl.Num n) =
         Except.ok
           ({ dtype := DataKind.Scalar, val := n, name := "",
              meta := TensorHandle.null, meta_2 := TensorHandle.null }, [])) ∧
    (∀ s : String,
       make g env (Mdl.Var s) =
         Except.ok
           ({ dtype := DataKind.Name, val := 0, name := s,
              meta := TensorHandle.null, meta_2 := TensorHandle.null }, [])) ∧
    (∀ i : Id, (env i).dtype = DataKind.Name → '@' ∉ (env i).name.toList →
       make g env (Mdl.Input i) = Except.error MakeErr.assertFailed ∧
       make g env (Mdl.Weight i) = Except.error MakeErr.assertFailed) := by
  refine ⟨fun n => rfl, fun s => rfl, fun i hname hat => ?_⟩
  have hsplit : splitOnChar '@' (env i).name.toList = [(env i).name.toList] :=
    splitOnChar_of_not_mem '@' _ hat
  have hdim : dim_from_name (env i) = Except.error MakeErr.assertFailed :=
    dim_from_name_not_two _ (by rw [hsplit]; simp)
  have hck : checkKinds env [(i, DataKind.Name)] = Except.ok () :=
    checkKinds_eq_ok env _ (by simpa using hname)
  constructor <;> simp [make, hck, hdim]

/-- C4 witness: `Num 7`, `Var "hello"`, and an `Input` consuming the
`@`-free name `"noatsign"`. -/
theorem C4_literal_var_passthrough_witness :
    make testBackend testEnv (Mdl.Num 7) =
      Except.ok
        ({ dtype := DataKind.Scalar, val := 7, name := "",
           meta := TensorHandle.null, meta_2 := TensorHandle.null }, []) ∧
    make testBackend testEnv (Mdl.Var "hello") =
      Except.ok
        ({ dtype := DataKind.Name, val := 0, name := "hello",
           meta := TensorHandle.null, meta_2 := TensorHandle.null }, []) ∧
    ((testEnv 22).dtype = DataKind.Name ∧ '@' ∉ (testEnv 22).name.toList) ∧
    make testBackend testEnv (Mdl.Input 22) = Except.error MakeErr.assertFailed :=
  ⟨(C4_literal_var_passthrough testBackend testEnv).1 7,
   (C4_literal_var_passthrough testBackend testEnv).2.1 "hello",
   ⟨rfl, by decide⟩,
   ((C4_literal_var_passthrough testBackend testEnv).2.2 22 rfl (by decide)).1⟩

/-- C1 counterexample: a `Poolavg` node whose seven operands carry exactly
the claimed metadata kinds (input `Tnsr`, the six parameters `Scalar`, with
padding `PVALID` and activation `ACTNONE`) does hit the unimplemented-kind
fatal path: there is no `Poolavg` arm in `make` and the node falls into the
`todo!()` fallback instead of reaching a backend pooling constructor. -/
theorem C1_poolavg_counterexample :
    (testEnv 10).dtype = DataKind.Tnsr ∧
    (testEnv 1).dtype = DataKind.Scalar ∧
    (testEnv 0).dtype = DataKind.Scalar ∧
    make testBackend testEnv (Mdl.Poolavg 10 1 1 1 1 1 0) =
      Except.error MakeErr.todoUnimplemented :=
  ⟨rfl, rfl, rfl, rfl⟩

/-- C1 (amended): for every `Poolmax` node whose seven operands have the
required metadata kinds and whose padding and activation scalars decode to
valid encodings, `make` calls the backend max-pooling constructor and
returns `Tensor` metadata wrapping the returned handle; a `Poolavg` node
with the same operands instead hits the unimplemented-kind fatal path,
because `make` has no `Poolavg` arm. -/
theorem C1_pool_make (g : Backend) (env : Id → ValTnsr)
    (inpt kernel_h kernel_w stride_h stride_w pad act : Id)
    (hin : (env inpt).dtype = DataKind.Tnsr)
    (hkh : (env kernel_h).dtype = DataKind.Scalar)
    (hkw : (env kernel_w).dtype = DataKind.Scalar)
    (hsh : (env stride_h).dtype = DataKind.Scalar)
    (hsw : (env stride_w).dtype = DataKind.Scalar)
    (hpad : (env pad).dtype = DataKind.Scalar)
    (hact : (env act).dtype = DataKind.Scalar)
    (pv av : Int)
    (hpv : decodePadding (env pad).val = some pv)
    (hav : decodeActi (env act).val = some av) :
    make g env (Mdl.Poolmax inpt kernel_h kernel_w stride_h stride_w pad act) =
      Except.ok
        ({ dtype := DataKind.Tnsr, val := 0, name := "",
           meta := g.pool2d_max (env inpt).meta (env kernel_h).val (env kernel_w).val
             (env stride_h).val (env stride_w).val pv av,
           meta_2 := TensorHandle.null },
         [BackendCall.pool2d_max (env inpt).meta (env kernel_h).val (env kernel_w).val
             (env stride_h).val (env stride_w).val pv av]) ∧
    make g env (Mdl.Poolavg inpt kernel_h kernel_w stride_h stride_w pad act) =
      Except.error MakeErr.todoUnimplemented := by
  constructor
  · simp [make, checkKinds, hin, hkh, hkw, hsh, hsw, hpad, hact, hpv, hav]
  · rfl

/-- C1 witness: a concrete `Poolmax`/`Poolavg` pair over the test backend
and environment, with padding `PVALID` and activation `ACTNONE`. -/
theorem C1_pool_make_witness :
    decodePadding (testEnv 1).val = some 1 ∧
    decodeActi (testEnv 0).val = some 0 ∧
    make testBackend testEnv (Mdl.Poolmax 10 1 1 2 2 1 0) =
      Except.ok
        ({ dtype := DataKind.Tnsr, val := 0, name := "",
           meta := testBackend.pool2d_max (testEnv 10).meta (testEnv 1).val (testEnv 1).val
             (testEnv 2).val (testEnv 2).val 1 0,
           meta_2 := TensorHandle.null },
         [BackendCall.pool2d_max (testEnv 10).meta (testEnv 1).val (testEnv 1).val
             (testEnv 2).val (testEnv 2).val 1 0]) ∧
    make testBackend testEnv (Mdl.Poolavg 10 1 1 2 2 1 0) =
      Except.error MakeErr.todoUnimplemented := by
  have h := C1_pool_make testBackend testEnv 10 1 1 2 2 1 0 rfl rfl rfl rfl rfl rfl rfl
    1 0 (by decide) (by decide)
  exact ⟨by decide, by decide, h.1, h.2⟩

/-- C5 counterexample: the piece `-2` of the name `x@-2` is not a positive
integer, yet `make` on the consuming `Input` node does not fail: Rust
parses each piece with `parse::<i32>()`, which accepts negative (and zero)
numerals, so the dimension list `[-2]` is handed to the backend. -/
theorem C5_counterexample :
    (testEnv 21).dtype = DataKind.Name ∧ (testEnv 21).name = "x@-2" ∧
    make testBackend testEnv (Mdl.Input 21) =
      Except.ok
        ({ dtype := DataKind.Tnsr, val := 0, name := "",
           meta := testBackend.new_input 1 [-2], meta_2 := TensorHandle.null },
         [BackendCall.new_input 1 [-2]]) :=
  ⟨rfl, rfl, rfl⟩

/-- C5 (amended): for every `Input` or `Weight` node, `make` splits the
operand's `Name` string on `@` and requires exactly two parts (fatal
otherwise), then splits the second part on `_` and parses each piece as a
signed 32-bit integer to obtain the dimension list; any piece that is not a
valid `i32` numeral (empty, non-numeric, or out of range) makes the parse
fail fatally, while non-positive numerals are accepted. -/
theorem C5_name_parse (g : Backend) (env : Id → ValTnsr) (i : Id)
    (hname : (env i).dtype = DataKind.Name) :
    ((splitOnChar '@' (env i).name.toList).length ≠ 2 →
       make g env (Mdl.Input i) = Except.error MakeErr.assertFailed ∧
       make g env (Mdl.Weight i) = Except.error MakeErr.assertFailed) ∧
    (∀ a d, splitOnChar '@' (env i).name.toList = [a, d] →
       ((splitOnChar '_' d).mapM parseI32 = none →
          make g env (Mdl.Input i) = Except.error MakeErr.parseFailed ∧
          make g env (Mdl.Weight i) = Except.error MakeErr.parseFailed) ∧
       (∀ dims, (splitOnChar '_' d).mapM parseI32 = some dims →
          make g env (Mdl.Input i) =
            Except.ok
              ({ dtype := DataKind.Tnsr, val := 0, name := "",
                 meta := g.new_input (dims.length : Int) dims,
                 meta_2 := TensorHandle.null },
               [BackendCall.new_input (dims.length : Int) dims]) ∧
          make g env (Mdl.Weight i) =
            Except.ok
              ({ dtype := DataKind.Tnsr, val := 0, name := "",
                 meta := g.new_weight (dims.length : Int) dims,
                 meta_2 := TensorHandle.null },
               [BackendCall.new_weight (dims.length : Int) dims]))) := by
  have hck : checkKinds env [(i, DataKind.Name)] = Except.ok () := by
    simp [checkKinds, hname]
  refine ⟨fun hlen => ?_, fun a d hsplit => ⟨fun hparse => ?_, fun dims hparse => ?_⟩⟩
  · have hdim := dim_from_name_not_two (env i) hlen
    constructor <;> simp [make, hck, hdim]
  · have hdim : dim_from_name (env i) = Except.error MakeErr.parseFailed := by
      rw [dim_from_name_two (env i) a d hsplit, hparse]
    constructor <;> simp [make, hck, hdim]
  · have hdim : dim_from_name (env i) = Except.ok dims := by
      rw [dim_from_name_two (env i) a d hsplit, hparse]
    constructor <;> simp [make, hck, hdim]

/-- C5 witness: the name `x@3a` splits into two parts on `@`, its piece
`3a` fails the `i32` parse, and the consuming `Input` aborts fatally. -/
theorem C5_name_parse_witness :
    (testEnv 23).dtype = DataKind.Name ∧
    splitOnChar '@' (testEnv 23).name.toList = [['x'], ['3', 'a']] ∧
    (splitOnChar '_' ['3', 'a']).mapM parseI32 = none ∧
    make testBackend testEnv (Mdl.Input 23) = Except.error MakeErr.parseFailed :=
  ⟨rfl, by decide, by decide,
   (((C5_name_parse testBackend testEnv 23 rfl).2 ['x'] ['3', 'a']
       (by decide)).1 (by decide)).1⟩

/-- C6: for a `Split` node with operands (axis:`Scalar`, input:`Tnsr`),
`make` calls the backend 2-way split constructor; an invalid-op sentinel
result is fatal; otherwise the new split op is registered as a graph edge
from the input's producing op, and the result is `TnsrTuple` metadata
wrapping both output descriptors. Moreover `Split` is the only node kind
whose `make` produces `TnsrTuple` metadata. -/
theorem C6_split (g : Backend) (env : Id → ValTnsr) (axis inpt : Id)
    (haxis : (env axis).dtype = DataKind.Scalar)
    (hinpt : (env inpt).dtype = DataKind.Tnsr)
    (t : Tensor) (hptr : (env inpt).meta = TensorHandle.ptr t) :
    (g.get_or_create_split1 (env inpt).meta (env axis).val 2 = Op_INVALID_OP →
       make g env (Mdl.Split axis inpt) = Except.error MakeErr.invalidOp) ∧
    (g.get_or_create_split1 (env inpt).meta (env axis).val 2 ≠ Op_INVALID_OP →
       make g env (Mdl.Split axis inpt) =
         Except.ok
           ({ dtype := DataKind.TnsrTuple, val := 0, name := "",
              meta := TensorHandle.ptr
                (g.opOutputs (g.get_or_create_split1 (env inpt).meta (env axis).val 2)).1,
              meta_2 := TensorHandle.ptr
                (g.opOutputs (g.get_or_create_split1 (env inpt).meta (env axis).val 2)).2 },
            [BackendCall.get_or_create_split1 (env inpt).meta (env axis).val 2,
             BackendCall.add_edge t.op
               (g.get_or_create_split1 (env inpt).meta (env axis).val 2) t.idx 0])) ∧
    (∀ (enode : Mdl) (d : ValTnsr) (calls : List BackendCall),
       make g env enode = Except.ok (d, calls) → d.dtype = DataKind.TnsrTuple →
       ∃ ax inp, enode = Mdl.Split ax inp) := by
  have hck : checkKinds env [(axis, DataKind.Scalar), (inpt, DataKind.Tnsr)] =
      Except.ok () := by
    simp [checkKinds, haxis, hinpt]
  refine ⟨fun hbad => ?_, fun hgood => ?_, fun enode d calls hmk hdt => ?_⟩
  · simp [make, hck, hbad]
  · rw [hptr] at hgood
    simp [make, hck, hgood, hptr]
  · cases enode <;> simp only [make] at hmk
    case Split => exact ⟨_, _, rfl⟩
    all_goals
      (repeat' split at hmk) <;>
        simp only [Except.ok.injEq, Prod.mk.injEq, reduceCtorEq] at hmk <;>
        (obtain ⟨hd, -⟩ := hmk; subst hd; exact absurd hdt (by simp))

/-- C6 witness: a concrete `Split` on the test backend, whose split
constructor returns a valid op. -/
theorem C6_split_witness :
    (testEnv 1).dtype = DataKind.Scalar ∧
    (testEnv 10).dtype = DataKind.Tnsr ∧
    (testEnv 10).meta = TensorHandle.ptr tA ∧
    testBackend.get_or_create_split1 (testEnv 10).meta (testEnv 1).val 2 ≠ Op_INVALID_OP ∧
    make testBackend testEnv (Mdl.Split 1 10) =
      Except.ok
        ({ dtype := DataKind.TnsrTuple, val := 0, name := "",
           meta := TensorHandle.ptr
             (testBackend.opOutputs
               (testBackend.get_or_create_split1 (testEnv 10).meta (testEnv 1).val 2)).1,
           meta_2 := TensorHandle.ptr
             (testBackend.opOutputs
               (testBackend.get_or_create_split1 (testEnv 10).meta (testEnv 1).val 2)).2 },
         [BackendCall.get_or_create_split1 (testEnv 10).meta (testEnv 1).val 2,
          BackendCall.add_edge tA.op
            (testBackend.get_or_create_split1 (testEnv 10).meta (testEnv 1).val 2) tA.idx 0]) :=
  ⟨rfl, rfl, rfl, by decide,
   (C6_split testBackend testEnv 1 10 rfl rfl tA rfl).2.1 (by decide)⟩

/-- C7: for a `Split0` (`SplitFirst`) or `Split1` (`SplitSecond`) node whose
operand carries `TnsrTuple` metadata, `make` returns `Tensor` metadata
whose handle is exactly the pair's first (resp. second) stored handle,
copied out with no backend call. -/
theorem C7_split_projections (g : Backend) (env : Id → ValTnsr) (i : Id)
    (h : (env i).dtype = DataKind.TnsrTuple) :
    make g env (Mdl.Split0 i) =
      Except.ok
        ({ dtype := DataKind.Tnsr, val := 0, name := "",
           meta := (env i).meta, meta_2 := TensorHandle.null }, []) ∧
    make g env (Mdl.Split1 i) =
      Except.ok
        ({ dtype := DataKind.Tnsr, val := 0, name := "",
           meta := (env i).meta_2, meta_2 := TensorHandle.null }, []) := by
  constructor <;> simp [make, checkKinds, h]

/-- C7 witness: projections of the concrete tensor pair at id 30, whose
stored handles are `ptr tA` and `ptr tB`. -/
theorem C7_split_projections_witness :
    (testEnv 30).dtype = DataKind.TnsrTuple ∧
    (testEnv 30).meta = TensorHandle.ptr tA ∧
    (testEnv 30).meta_2 = TensorHandle.ptr tB ∧
    make testBackend testEnv (Mdl.Split0 30) =
      Except.ok
        ({ dtype := DataKind.Tnsr, val := 0, name := "",
           meta := (testEnv 30).meta, meta_2 := TensorHandle.null }, []) ∧
    make testBackend testEnv (Mdl.Split1 30) =
      Except.ok
        ({ dtype := DataKind.Tnsr, val := 0, name := "",
           meta := (testEnv 30).meta_2, meta_2 := TensorHandle.null }, []) :=
  ⟨rfl, rfl, rfl, (C7_split_projections testBackend testEnv 30 rfl).1,
   (C7_split_projections testBackend testEnv 30 rfl).2⟩

/-- C8: for a `Relu`, `Tanh` or `Sigmoid` node whose single operand carries
`Tensor` metadata, `make` calls the corresponding backend activation
constructor with the in-place flag fixed to `true` and returns `Tensor`
metadata wrapping the returned handle. -/
theorem C8_activations_inplace (g : Backend) (env : Id → ValTnsr) (a : Id)
    (h : (env a).dtype = DataKind.Tnsr) :
    make g env (Mdl.Relu a) =
      Except.ok
        ({ dtype := DataKind.Tnsr, val := 0, name := "",
           meta := g.relu (env a).meta true, meta_2 := TensorHandle.null },
         [BackendCall.relu (env a).meta true]) ∧
    make g env (Mdl.Tanh a) =
      Except.ok
        ({ dtype := DataKind.Tnsr, val := 0, name := "",
           meta := g.tanh (env a).meta true, meta_2 := TensorHandle.null },
         [BackendCall.tanh (env a).meta true]) ∧
    make g env (Mdl.Sigmoid a) =
      Except.ok
        ({ dtype := DataKind.Tnsr, val := 0, name := "",
           meta := g.sigmoid (env a).meta true, meta_2 := TensorHandle.null },
         [BackendCall.sigmoid (env a).meta true]) := by
  refine ⟨?_, ?_, ?_⟩ <;> simp [make, checkKinds, h]

/-- C8 witness: the three activations applied to the concrete tensor at
id 10. -/
theorem C8_activations_inplace_witness :
    (testEnv 10).dtype = DataKind.Tnsr ∧
    make testBackend testEnv (Mdl.Relu 10) =
      Except.ok
        ({ dtype := DataKind.Tnsr, val := 0, name := "",
           meta := testBackend.relu (testEnv 10).meta true, meta_2 := TensorHandle.null },
         [BackendCall.relu (testEnv 10).meta true]) ∧
    make testBackend testEnv (Mdl.Tanh 10) =
      Except.ok
        ({ dtype := DataKind.Tnsr, val := 0, name := "",
           meta := testBackend.tanh (testEnv 10).meta true, meta_2 := TensorHandle.null },
         [BackendCall.tanh (testEnv 10).meta true]) :=
  ⟨rfl, (C8_activations_inplace testBackend testEnv 10 rfl).1,
   (C8_activations_inplace testBackend testEnv 10 rfl).2.1⟩

/-- C9: for a `Concat` node with operands (axis:`Scalar`, rank:`Scalar`,
lhs:`Tnsr`, rhs:`Tnsr`), `make` validates the rank operand's kind but calls
the backend concat constructor with only the axis value and exactly the two
tensor handles; in particular the result is unchanged under any change of
the rank operand's metadata that keeps its `Scalar` kind. -/
theorem C9_concat (g : Backend) (env : Id → ValTnsr) (axis ndim a b : Id)
    (haxis : (env axis).dtype = DataKind.Scalar)
    (hndim : (env ndim).dtype = DataKind.Scalar)
    (ha : (env a).dtype = DataKind.Tnsr)
    (hb : (env b).dtype = DataKind.Tnsr) :
    make g env (Mdl.Concat axis ndim a b) =
      Except.ok
        ({ dtype := DataKind.Tnsr, val := 0, name := "",
           meta := g.concat (env axis).val 2 [(env a).meta, (env b).meta],
           meta_2 := TensorHandle.null },
         [BackendCall.concat (env axis).val 2 [(env a).meta, (env b).meta]]) ∧
    (∀ env2 : Id → ValTnsr, (env2 ndim).dtype = DataKind.Scalar →
       env2 axis = env axis → env2 a = env a → env2 b = env b →
       make g env2 (Mdl.Concat axis ndim a b) = make g env (Mdl.Concat axis ndim a b)) := by
  refine ⟨?_, fun env2 h2 e1 e2 e3 => ?_⟩
  · simp [make, checkKinds, haxis, hndim, ha, hb]
  · simp [make, checkKinds, haxis, hndim, ha, hb, h2, e1, e2, e3]

/-- C9 witness: a concrete `Concat` whose rank operand has value 3; the
backend call records the axis value, the literal count 2 and the two
tensor handles only. -/
theorem C9_concat_witness :
    (testEnv 1).dtype = DataKind.Scalar ∧ (testEnv 3).dtype = DataKind.Scalar ∧
    make testBackend testEnv (Mdl.Concat 1 3 10 11) =
      Except.ok
        ({ dtype := DataKind.Tnsr, val := 0, name := "",
           meta := testBackend.concat (testEnv 1).val 2 [(testEnv 10).meta, (testEnv 11).meta],
           meta_2 := TensorHandle.null },
         [BackendCall.concat (testEnv 1).val 2 [(testEnv 10).meta, (testEnv 11).meta]]) :=
  ⟨rfl, rfl, (C9_concat testBackend testEnv 1 3 10 11 rfl rfl rfl rfl).1⟩

/-- C10: the source's `impl Default for ValTnsr` invokes itself through the
struct-update base `..Default::default()`, so its evaluation never returns:
no finite recursion depth produces a record. -/
theorem C10_default_diverges (fuel : Nat) : ValTnsr.defaultFuel fuel = none := by
  induction fuel with
  | zero => rfl
  | succ n ih => simp [ValTnsr.defaultFuel, ih]

end Tensat
